import Mathlib

/-!
# Verification of the btrpa-scan detection & resolution engine

Shallow embedding of the core of `btrpa-scan.py` (a BLE scanner with RPA
resolution): the cryptographic RPA resolver (`_bt_ah`, `_is_rpa`,
`_resolve_rpa`), the distance estimator (`_estimate_distance`), the RSSI
smoother (`_avg_rssi`) and the per-device aggregation state machine
(`_detection_callback_inner`, `_irk_detection`, `_record_device`).

Python strings are modelled as `List Char`, Python byte strings as
`List Nat` with every byte kept below 256 by reducing mod 256 where an
operation could overflow, Python `int` as `Int`, Python `float`
computations as exact arithmetic over `ℚ`/`ℝ`, and Python dicts as
association lists in insertion order.
-/

namespace BtrpaScan

/-- A Python string, as its list of characters. -/
abbrev PyStr := List Char

/-- ASCII whitespace accepted (and stripped) by Python's `int(s, 16)`. -/
def isPySpace (c : Char) : Bool :=
  c = ' ' || c = '\t' || c = '\n' || c = '\r' || c = '\x0b' || c = '\x0c'

/-- Numeric value of one hexadecimal digit character, if it is one. -/
def hexVal (c : Char) : Option Nat :=
  if '0' ≤ c && c ≤ '9' then some (c.toNat - 48)
  else if 'a' ≤ c && c ≤ 'f' then some (c.toNat - 87)
  else if 'A' ≤ c && c ≤ 'F' then some (c.toNat - 55)
  else none

/-- Continuation of CPython's base-16 digit grammar after at least one digit
has been read: further digits, with single underscores allowed between
digits (`digit ("_"? digit)*`). -/
def hexDigitsCont : List Char → Nat → Option Nat
  | [], acc => some acc
  | '_' :: c :: rest, acc =>
      match hexVal c with
      | some d => hexDigitsCont rest (16 * acc + d)
      | none => none
  | ['_'], _ => none
  | c :: rest, acc =>
      match hexVal c with
      | some d => hexDigitsCont rest (16 * acc + d)
      | none => none

/-- CPython's base-16 digit chain: at least one digit, then `("_"? digit)*`. -/
def hexDigits : List Char → Option Nat
  | [] => none
  | c :: rest =>
      match hexVal c with
      | some d => hexDigitsCont rest d
      | none => none

/-- Strip an optional `0x` / `0X` prefix; CPython additionally allows a
single underscore directly after the prefix. -/
def dropBaseMarker : List Char → List Char
  | '0' :: 'x' :: r =>
      (match r with
       | '_' :: r2 => r2
       | _ => r)
  | '0' :: 'X' :: r =>
      (match r with
       | '_' :: r2 => r2
       | _ => r)
  | t => t

/-- Model of CPython's `int(s, 16)` (on ASCII input): optional surrounding
whitespace, an optional single sign, an optional `0x`/`0X` prefix, then
hex digits with single underscores allowed between digits.  `none` models
the `ValueError` that `_resolve_rpa` catches. -/
def pyIntBase16 (s : PyStr) : Option Int :=
  let t := ((s.dropWhile isPySpace).reverse.dropWhile isPySpace).reverse
  match t with
  | '-' :: r => (hexDigits (dropBaseMarker r)).map (fun n => -(n : Int))
  | '+' :: r => (hexDigits (dropBaseMarker r)).map (fun n => (n : Int))
  | r => (hexDigits (dropBaseMarker r)).map (fun n => (n : Int))

/-- Python's `str.replace("-", ":")`. -/
def replaceDash (s : PyStr) : PyStr :=
  s.map (fun c => if c = '-' then ':' else c)

/-! ## AES-128 (FIPS-197)

The scanner encrypts a single block with AES-128-ECB through the
`cryptography` library; the cipher itself is embedded here.  Bytes are
`Nat`s; every operation that could leave the byte range reduces mod 256. -/

/-- The AES S-box (FIPS-197 Figure 7). -/
def sbox : List Nat :=
  [0x63, 0x7c, 0x77, 0x7b, 0xf2, 0x6b, 0x6f, 0xc5, 0x30, 0x01, 0x67, 0x2b, 0xfe, 0xd7, 0xab, 0x76,
   0xca, 0x82, 0xc9, 0x7d, 0xfa, 0x59, 0x47, 0xf0, 0xad, 0xd4, 0xa2, 0xaf, 0x9c, 0xa4, 0x72, 0xc0,
   0xb7, 0xfd, 0x93, 0x26, 0x36, 0x3f, 0xf7, 0xcc, 0x34, 0xa5, 0xe5, 0xf1, 0x71, 0xd8, 0x31, 0x15,
   0x04, 0xc7, 0x23, 0xc3, 0x18, 0x96, 0x05, 0x9a, 0x07, 0x12, 0x80, 0xe2, 0xeb, 0x27, 0xb2, 0x75,
   0x09, 0x83, 0x2c, 0x1a, 0x1b, 0x6e, 0x5a, 0xa0, 0x52, 0x3b, 0xd6, 0xb3, 0x29, 0xe3, 0x2f, 0x84,
   0x53, 0xd1, 0x00, 0xed, 0x20, 0xfc, 0xb1, 0x5b, 0x6a, 0xcb, 0xbe, 0x39, 0x4a, 0x4c, 0x58, 0xcf,
   0xd0, 0xef, 0xaa, 0xfb, 0x43, 0x4d, 0x33, 0x85, 0x45, 0xf9, 0x02, 0x7f, 0x50, 0x3c, 0x9f, 0xa8,
   0x51, 0xa3, 0x40, 0x8f, 0x92, 0x9d, 0x38, 0xf5, 0xbc, 0xb6, 0xda, 0x21, 0x10, 0xff, 0xf3, 0xd2,
   0xcd, 0x0c, 0x13, 0xec, 0x5f, 0x97, 0x44, 0x17, 0xc4, 0xa7, 0x7e, 0x3d, 0x64, 0x5d, 0x19, 0x73,
   0x60, 0x81, 0x4f, 0xdc, 0x22, 0x2a, 0x90, 0x88, 0x46, 0xee, 0xb8, 0x14, 0xde, 0x5e, 0x0b, 0xdb,
   0xe0, 0x32, 0x3a, 0x0a, 0x49, 0x06, 0x24, 0x5c, 0xc2, 0xd3, 0xac, 0x62, 0x91, 0x95, 0xe4, 0x79,
   0xe7, 0xc8, 0x37, 0x6d, 0x8d, 0xd5, 0x4e, 0xa9, 0x6c, 0x56, 0xf4, 0xea, 0x65, 0x7a, 0xae, 0x08,
   0xba, 0x78, 0x25, 0x2e, 0x1c, 0xa6, 0xb4, 0xc6, 0xe8, 0xdd, 0x74, 0x1f, 0x4b, 0xbd, 0x8b, 0x8a,
   0x70, 0x3e, 0xb5, 0x66, 0x48, 0x03, 0xf6, 0x0e, 0x61, 0x35, 0x57, 0xb9, 0x86, 0xc1, 0x1d, 0x9e,
   0xe1, 0xf8, 0x98, 0x11, 0x69, 0xd9, 0x8e, 0x94, 0x9b, 0x1e, 0x87, 0xe9, 0xce, 0x55, 0x28, 0xdf,
   0x8c, 0xa1, 0x89, 0x0d, 0xbf, 0xe6, 0x42, 0x68, 0x41, 0x99, 0x2d, 0x0f, 0xb0, 0x54, 0xbb, 0x16]

/-- Byte-wise xor, kept in the byte range. -/
def bxor (a b : Nat) : Nat := (a ^^^ b) % 256

/-- GF(2⁸) doubling (FIPS-197 `xtime`). -/
def xtime (a : Nat) : Nat := ((2 * a) ^^^ (if 128 ≤ a then 0x1b else 0)) % 256

/-- S-box substitution of one byte. -/
def sb (a : Nat) : Nat := sbox.getD a 0

/-- SubBytes on the flat 16-byte state. -/
def subBytesL (s : List Nat) : List Nat := s.map sb

/-- ShiftRows on the flat 16-byte state (index `i = row + 4 * col`). -/
def shiftRowsL (s : List Nat) : List Nat :=
  [0, 5, 10, 15, 4, 9, 14, 3, 8, 13, 2, 7, 12, 1, 6, 11].map (fun i => s.getD i 0)

/-- MixColumns on one 4-byte column. -/
def mixCol : List Nat → List Nat
  | [a, b, c, d] =>
      [bxor (bxor (xtime a) (bxor (xtime b) b)) (bxor c d),
       bxor (bxor a (xtime b)) (bxor (bxor (xtime c) c) d),
       bxor (bxor a b) (bxor (xtime c) (bxor (xtime d) d)),
       bxor (bxor (bxor (xtime a) a) b) (bxor c (xtime d))]
  | s => s

/-- MixColumns on the flat 16-byte state. -/
def mixColumnsL (s : List Nat) : List Nat :=
  mixCol (s.take 4) ++ mixCol ((s.drop 4).take 4) ++
    mixCol ((s.drop 8).take 4) ++ mixCol ((s.drop 12).take 4)

/-- AddRoundKey; the output is always exactly 16 bytes. -/
def addRoundKeyL (s k : List Nat) : List Nat :=
  (List.range 16).map (fun i => bxor (s.getD i 0) (k.getD i 0))

/-- AES round constants (first bytes of FIPS-197 `Rcon`). -/
def rconByte (i : Nat) : Nat :=
  [0x01, 0x02, 0x04, 0x08, 0x10, 0x20, 0x40, 0x80, 0x1b, 0x36].getD i 0

/-- SubWord of the key schedule. -/
def subWord (w : List Nat) : List Nat := w.map sb

/-- RotWord of the key schedule. -/
def rotWord : List Nat → List Nat
  | a :: rest => rest ++ [a]
  | [] => []

/-- xor of two 4-byte words. -/
def xorWord (a b : List Nat) : List Nat := List.zipWith bxor a b

/-- AES-128 key-schedule words (FIPS-197 §5.2). -/
def keyWords (key : List Nat) : Nat → List Nat
  | 0 => key.take 4
  | 1 => (key.drop 4).take 4
  | 2 => (key.drop 8).take 4
  | 3 => (key.drop 12).take 4
  | (i + 4) =>
      if (i + 4) % 4 = 0 then
        xorWord (keyWords key i)
          (xorWord (subWord (rotWord (keyWords key (i + 3))))
            [rconByte ((i + 4) / 4 - 1), 0, 0, 0])
      else
        xorWord (keyWords key i) (keyWords key (i + 3))

/-- Round key `r` (0 ≤ r ≤ 10) as a flat 16-byte list. -/
def roundKey (key : List Nat) (r : Nat) : List Nat :=
  keyWords key (4 * r) ++ keyWords key (4 * r + 1) ++
    keyWords key (4 * r + 2) ++ keyWords key (4 * r + 3)

/-- One inner AES round (SubBytes, ShiftRows, MixColumns, AddRoundKey). -/
def aesRound (key : List Nat) (r : Nat) (s : List Nat) : List Nat :=
  addRoundKeyL (mixColumnsL (shiftRowsL (subBytesL s))) (roundKey key r)

/-- AES-128 single-block encryption (FIPS-197 Figure 5); this is what
AES-128-ECB does with exactly one block of input. -/
def aes128Encrypt (key pt : List Nat) : List Nat :=
  let s0 := addRoundKeyL pt (roundKey key 0)
  let s9 := (List.range' 1 9).foldl (fun s r => aesRound key r s) s0
  addRoundKeyL (shiftRowsL (subBytesL s9)) (roundKey key 10)

set_option maxRecDepth 100000 in
/-- FIPS-197 Appendix C.1 test vector, checking the cipher embedding. -/
theorem aes128_fips197_vector :
    aes128Encrypt
      [0x00, 0x01, 0x02, 0x03, 0x04, 0x05, 0x06, 0x07,
       0x08, 0x09, 0x0a, 0x0b, 0x0c, 0x0d, 0x0e, 0x0f]
      [0x00, 0x11, 0x22, 0x33, 0x44, 0x55, 0x66, 0x77,
       0x88, 0x99, 0xaa, 0xbb, 0xcc, 0xdd, 0xee, 0xff] =
      [0x69, 0xc4, 0xe0, 0xd8, 0x6a, 0x7b, 0x04, 0x30,
       0xd8, 0xcd, 0xb7, 0x80, 0x70, 0xb4, 0xc5, 0x5a] := by
  decide

/-! ## The RPA resolver (`_bt_ah`, `_is_rpa`, `_resolve_rpa`) -/

/-- Source `_bt_ah`: AES-128-ECB(IRK, 13 zero bytes ‖ prand), last 3 ciphertext
bytes (Bluetooth Core Spec Vol 3, Part H, §2.2.2). -/
def bt_ah (irk prand : List Nat) : List Nat :=
  (aes128Encrypt irk (List.replicate 13 0 ++ prand)).drop 13

/-- Source `_is_rpa`: a 6-byte address whose first byte has top two bits `01`. -/
def is_rpa (addrBytes : List Nat) : Bool :=
  addrBytes.length == 6 && (addrBytes.getD 0 0) >>> 6 == 1

/-- Source `_resolve_rpa`: resolve a MAC address string against an IRK.  The
string is split on `:` after replacing `-`; each octet goes through
`int(octet, 16)`; `bytes(...)` additionally requires every value to be in
`[0, 256)`; parse failures (the caught `ValueError`s) yield `false`. -/
def resolve_rpa (irk : List Nat) (address : PyStr) : Bool :=
  let parts := (replaceDash address).splitOn ':'
  if parts.length ≠ 6 then false
  else
    match parts.mapM pyIntBase16 with
    | none => false
    | some vals =>
        if vals.all (fun v => 0 ≤ v && v < 256) then
          let addrBytes := vals.map Int.toNat
          if is_rpa addrBytes then
            bt_ah irk (addrBytes.take 3) == addrBytes.drop 3
          else false
        else false

/-- Uppercase hex digit character of a nibble. -/
def hexChar (d : Nat) : Char := if d < 10 then Char.ofNat (48 + d) else Char.ofNat (55 + d)

/-- One byte printed as two uppercase hex characters (`f"{b:02X}"`). -/
def printByte (b : Nat) : PyStr := [hexChar (b / 16), hexChar (b % 16)]

/-- A byte string printed as colon-separated hex octets
(`":".join(f"{b:02X}" for b in addr_bytes)`). -/
def printAddr (bs : List Nat) : PyStr := List.intercalate [':'] (bs.map printByte)

/-! ## The distance estimator (`_estimate_distance`)

The Python code computes in IEEE floating point; the embedding computes the
same formula in exact real arithmetic. -/

/-- Source `_ENV_PATH_LOSS`: environment name → path-loss exponent
(`2.2` is the rational `11/5`). -/
def envPathLoss : List (PyStr × ℚ) :=
  [("free_space".toList, 2), ("outdoor".toList, 11 / 5), ("indoor".toList, 3)]

/-- Source `_DEFAULT_REF_OFFSET` (59 dB). -/
def defaultRefOffset : Int := 59

/-- Lookup `_ENV_PATH_LOSS.get(env, 2.0)`. -/
def envN (env : PyStr) : ℚ := (envPathLoss.lookup env).getD 2

/-- Selection of `measured_power` in `_estimate_distance`: `ref_rssi` when
given (ignoring `tx_power`), else `tx_power - _DEFAULT_REF_OFFSET`, else
nothing (no estimate possible). -/
def measuredPower (txPower refRssi : Option Int) : Option Int :=
  match refRssi with
  | some r => some r
  | none =>
      match txPower with
      | some t => some (t - defaultRefOffset)
      | none => none

/-- Source `_estimate_distance`: log-distance path-loss model
`10 ** ((measured_power - rssi) / (10 * n))`, `None` for the sentinel
`rssi == 0` and when no `measured_power` can be derived. -/
noncomputable def estimate_distance (rssi : Int) (txPower : Option Int)
    (env : PyStr) (refRssi : Option Int) : Option ℝ :=
  if rssi = 0 then none
  else
    match measuredPower txPower refRssi with
    | none => none
    | some mp => some ((10 : ℝ) ^ ((((mp - rssi : Int)) : ℝ) / (10 * ((envN env : ℚ) : ℝ))))

/-- The distance estimator exactly as the specification words it: `None`
exactly when `rssi = 0` or both calibration inputs are absent; otherwise
`10 ^ ((measured_power - rssi) / (10 * n))` where `measured_power` is
`ref_rssi` if supplied and `tx_power - 59` otherwise, and `n` is
2.0 for `free_space`, 2.2 for `outdoor`, 3.0 for `indoor` and 2.0 for
anything unknown. -/
noncomputable def spec_estimate (rssi : Int) (txPower : Option Int)
    (env : PyStr) (refRssi : Option Int) : Option ℝ :=
  if rssi = 0 ∨ (refRssi = none ∧ txPower = none) then none
  else
    let mp : Int :=
      match refRssi with
      | some r => r
      | none => txPower.getD 0 - 59
    let n : ℚ :=
      if env = "free_space".toList then 2
      else if env = "outdoor".toList then 11 / 5
      else if env = "indoor".toList then 3
      else 2
    some ((10 : ℝ) ^ ((((mp - rssi : Int)) : ℝ) / (10 * (n : ℝ))))

/-! ## The RSSI smoother (`_avg_rssi`) -/

/-- Keep the last `w` entries of a list; this is what a
`collections.deque(maxlen=w)` holds after appends. -/
def lastN (w : Nat) (l : List Int) : List Int := l.drop (l.length - w)

/-- Python's built-in `round`: nearest integer, ties to the even one. -/
def pyRound (q : ℚ) : Int :=
  if q - ⌊q⌋ < 1 / 2 then ⌊q⌋
  else if 1 / 2 < q - ⌊q⌋ then ⌊q⌋ + 1
  else if ⌊q⌋ % 2 = 0 then ⌊q⌋ else ⌊q⌋ + 1

/-- Source `_avg_rssi` acting on one address's window: append the reading
to the bounded deque and return `round(sum(window) / len(window))` along
with the new window. -/
def avgRssiStep (w : Nat) (hist : List Int) (r : Int) : List Int × Int :=
  (lastN w (hist ++ [r]),
   pyRound (((lastN w (hist ++ [r])).sum : ℚ) /
     (((lastN w (hist ++ [r])).length : Nat) : ℚ)))

/-- All `_avg_rssi` pushes for one address in order, starting from the
fresh empty deque: the final window and the value returned by the last
push (`none` when nothing was pushed). -/
def runWindow (w : Nat) (rs : List Int) : List Int × Option Int :=
  rs.foldl (fun acc r =>
    ((avgRssiStep w acc.1 r).1, some ((avgRssiStep w acc.1 r).2))) ([], none)

/-! ## The detection aggregator

State owned by `BLEScanner`, detection events, emitted output.  Python
dicts are association lists in insertion order (`len` of the dict is the
list length); the `non_rpa_warned` set is a list of members.  Console
output, CSV/TUI/GUI sinks, timestamps and the float `est_distance` field
replicate fields modelled here, and are not part of the embedding. -/

/-- A Python dict keyed by address strings. -/
abbrev Dict (β : Type) := List (PyStr × β)

/-- Dict read `d.get(k, dflt)`. -/
def dictGet (d : Dict β) (k : PyStr) (dflt : β) : β := ((d.lookup k).getD dflt)

/-- Dict write `d[k] = v`: overwrite in place, or append a new entry. -/
def dictSet (d : Dict β) (k : PyStr) (v : β) : Dict β :=
  if (d.lookup k).isSome then d.map (fun p => if p.1 = k then (k, v) else p)
  else d ++ [(k, v)]

/-- A GPS fix as delivered by the GPS reader. -/
structure Fix where
  lat : ℚ
  lon : ℚ
  alt : Option ℚ
deriving DecidableEq

/-- One `device_best_gps` entry. -/
structure BestGps where
  lat : ℚ
  lon : ℚ
  rssi : Int
deriving DecidableEq

/-- A detection event: the fields of `(device, advertisement_data)` that
the aggregator reads. -/
structure Event where
  address : Option PyStr
  rssi : Int
  tx_power : Option Int
  name : Option PyStr
deriving DecidableEq

/-- The scanner configuration read by the detection callback.  `target_mac`
holds the value already uppercased by `__init__`; `rssi_window` holds the
constructor argument (`__init__` clamps it with `max(1, ·)` wherever it is
used here); `gps_fix` is the current fix snapshot (`none` models both "GPS
disabled" and "no fix yet"). -/
structure Config where
  irks : List (List Nat)
  target_mac : Option PyStr
  min_rssi : Option Int
  name_filter : Option PyStr
  rssi_window : Nat
  verbose : Bool
  quiet : Bool
  tui : Bool
  gui : Bool
  ref_rssi : Option Int
  environment : PyStr
  gps_fix : Option Fix

/-- The mutable per-run state of `BLEScanner` that the detection callback
touches. -/
structure ScanState where
  seen_count : Nat
  unique_devices : Dict Nat
  resolved_devices : Dict Nat
  rpa_count : Nat
  non_rpa_warned : List PyStr
  rssi_history : Dict (List Int)
  device_best_gps : Dict BestGps

/-- The state right after `__init__`. -/
def initState : ScanState :=
  { seen_count := 0
    unique_devices := []
    resolved_devices := []
    rpa_count := 0
    non_rpa_warned := []
    rssi_history := []
    device_best_gps := [] }

/-- A record as handed to the sinks (`_build_record` fields that are not
derivable from the others), together with the heading line `_print_device`
would print for it. -/
structure Rec where
  address : Option PyStr
  name : PyStr
  rssi : Int
  avg_rssi : Option Int
  tx_power : Option Int
  latitude : Option ℚ
  longitude : Option ℚ
  gps_altitude : Option ℚ
  resolved : Option Bool
  label : PyStr
deriving DecidableEq

/-- Observable output of one detection callback: an emitted record, a
printed UUID warning, or one `_resolve_rpa` trial (instrumentation making
the IRK loop's work visible). -/
inductive Emit where
  | record (r : Rec)
  | warn (addr : PyStr)
  | tried (irk : List Nat)
deriving DecidableEq

/-- Python `str.upper()` of `device.address or ""`. -/
def upperAddr (e : Event) : PyStr := (e.address.getD []).map Char.toUpper

/-- Python `str.lower()`. -/
def pyLower (s : PyStr) : PyStr := s.map Char.toLower

/-- Python's substring test `pat in hay`. -/
def strContains (hay pat : PyStr) : Bool := decide (pat <:+: hay)

/-- Decimal digits of a number (an f-string `{n}`). -/
def natStr (n : Nat) : PyStr := Nat.toDigits 10 n

/-- Source `_record_device` (the parts with observable state): build the
record, stamp it with the current GPS fix, and track the per-device best
GPS position, replacing it only for a strictly stronger raw RSSI. -/
def recordDevice (cfg : Config) (st : ScanState) (e : Event) (label : PyStr)
    (resolved : Option Bool) (avg : Option Int) : ScanState × Rec :=
  let base : Rec :=
    { address := e.address
      name := (e.name.getD "Unknown".toList)
      rssi := e.rssi
      avg_rssi := avg
      tx_power := e.tx_power
      latitude := none
      longitude := none
      gps_altitude := none
      resolved := resolved
      label := label }
  match cfg.gps_fix with
  | none => (st, base)
  | some fix =>
      let r := { base with
        latitude := some fix.lat
        longitude := some fix.lon
        gps_altitude := fix.alt }
      let addr := upperAddr e
      let newBest : BestGps := { lat := fix.lat, lon := fix.lon, rssi := e.rssi }
      let st' :=
        match st.device_best_gps.lookup addr with
        | none =>
            { st with device_best_gps := dictSet st.device_best_gps addr newBest }
        | some best =>
            if best.rssi < e.rssi then
              { st with device_best_gps := dictSet st.device_best_gps addr newBest }
            else st
      (st', r)

/-- Source `_print_device`: always records (and therefore emits) the
record; the console body prints fields of that record and is not modelled
further. -/
def printDevice (cfg : Config) (st : ScanState) (e : Event) (label : PyStr)
    (resolved : Option Bool) (avg : Option Int) : ScanState × Emit :=
  let s := recordDevice cfg st e label resolved avg
  (s.1, Emit.record s.2)

/-- The `for irk in self.irks: if _resolve_rpa(irk, addr): ... break` loop
of `_irk_detection`, instrumented with one `Emit.tried` per `_resolve_rpa`
call actually made. -/
def resolveLoop (irks : List (List Nat)) (addr : PyStr) : Bool × List Emit :=
  match irks with
  | [] => (false, [])
  | k :: rest =>
      if resolve_rpa k addr then (true, [Emit.tried k])
      else
        let s := resolveLoop rest addr
        (s.1, Emit.tried k :: s.2)

/-- The platform-opaque (UUID-shaped) address test of `_irk_detection`:
`len(addr.replace("-", "")) == 32 and ":" not in addr`. -/
def isUuidAddr (addr : PyStr) : Bool :=
  ((addr.filter (fun c => c ≠ '-')).length == 32) && !(addr.contains ':')

/-- Source `_irk_detection`: count the detection, divert platform-opaque
(UUID-shaped) addresses to a once-per-identifier warning, otherwise count
the address, try the IRKs in order and report a resolved (or, with
verbose, a no-match) record. -/
def irkDetection (cfg : Config) (st : ScanState) (e : Event) (addr : PyStr)
    (avg : Option Int) : ScanState × List Emit :=
  let st := { st with seen_count := st.seen_count + 1 }
  if isUuidAddr addr then
    if addr ∈ st.non_rpa_warned then (st, [])
    else
      let st := { st with non_rpa_warned := addr :: st.non_rpa_warned }
      if !cfg.quiet && !cfg.tui && !cfg.gui then (st, [Emit.warn addr]) else (st, [])
  else
    let times := dictGet st.unique_devices addr 0 + 1
    let st := { st with unique_devices := dictSet st.unique_devices addr times }
    let loop := resolveLoop cfg.irks addr
    if loop.1 then
      let st := { st with rpa_count := st.rpa_count + 1 }
      let det := dictGet st.resolved_devices addr 0 + 1
      let st := { st with resolved_devices := dictSet st.resolved_devices addr det }
      let label := "IRK RESOLVED  —  match #".toList ++ natStr det ++
        " (addr seen ".toList ++ natStr times ++ "x)".toList
      let s := printDevice cfg st e label (some true) avg
      (s.1, loop.2 ++ [s.2])
    else
      if cfg.verbose then
        let label := "IRK NO MATCH  —  addr seen ".toList ++ natStr times ++ "x".toList
        let s := printDevice cfg st e label (some false) avg
        (s.1, loop.2 ++ [s.2])
      else (st, loop.2)

/-- The window-update step at the top of `_detection_callback_inner`:
`avg_rssi = self._avg_rssi(addr, adv.rssi) if self.rssi_window > 1 else
None`, returning the state (with the address's window updated when
windowing is enabled) and the averaged RSSI. -/
def applyWindow (cfg : Config) (st : ScanState) (e : Event) :
    ScanState × Option Int :=
  let addr := upperAddr e
  let w := max 1 cfg.rssi_window
  if 1 < w then
    ({ st with rssi_history := (dictSet st.rssi_history addr
        (avgRssiStep w (dictGet st.rssi_history addr []) e.rssi).1) },
     some (avgRssiStep w (dictGet st.rssi_history addr []) e.rssi).2)
  else (st, none)

/-- The mode dispatch at the bottom of `_detection_callback_inner`: IRK
mode, targeted mode, or discover-all mode. -/
def modeDispatch (cfg : Config) (st : ScanState) (e : Event)
    (avg : Option Int) : ScanState × List Emit :=
  let addr := upperAddr e
  if cfg.irks ≠ [] then irkDetection cfg st e addr avg
  else
    match cfg.target_mac with
    | some tgt =>
        if ¬ (strContains addr tgt = true) then (st, [])
        else
          let st := { st with seen_count := st.seen_count + 1 }
          let label := "TARGET FOUND  —  detection #".toList ++ natStr st.seen_count
          let s := printDevice cfg st e label none avg
          (s.1, [s.2])
    | none =>
        let times := dictGet st.unique_devices addr 0 + 1
        let st := { st with unique_devices := dictSet st.unique_devices addr times }
        let st := { st with seen_count := st.seen_count + 1 }
        let label := "DEVICE #".toList ++ natStr st.unique_devices.length ++
          "  —  seen ".toList ++ natStr times ++ "x".toList
        let s := printDevice cfg st e label none avg
        (s.1, [s.2])

/-- Source `_detection_callback_inner`: window update, RSSI and name
filters (silent rejection returns the state with only the window update
applied), then the mode dispatch. -/
def detectionCallbackInner (cfg : Config) (st : ScanState) (e : Event) :
    ScanState × List Emit :=
  let windowed := applyWindow cfg st e
  let st := windowed.1
  let avg := windowed.2
  let effectiveRssi := avg.getD e.rssi
  let rssiRejected :=
    match cfg.min_rssi with
    | some m => decide (effectiveRssi < m)
    | none => false
  if rssiRejected then (st, [])
  else
    let nameRejected :=
      match cfg.name_filter with
      | some f => !(strContains (pyLower (e.name.getD [])) (pyLower f))
      | none => false
    if nameRejected then (st, [])
    else modeDispatch cfg st e avg

/-- A whole run: fold the detection callback over a list of events,
accumulating everything emitted. -/
def runScan (cfg : Config) (events : List Event) : ScanState × List Emit :=
  events.foldl (fun acc e =>
    ((detectionCallbackInner cfg acc.1 e).1,
     acc.2 ++ (detectionCallbackInner cfg acc.1 e).2)) (initState, [])

/-! ## Helper lemmas: hex printing parses back -/

set_option maxRecDepth 10000 in
/-- Parsing a printed byte with `int(octet, 16)` gives back the byte. -/
theorem printByte_parse : ∀ b < 256, pyIntBase16 (printByte b) = some (b : Int) := by
  decide

set_option maxRecDepth 10000 in
/-- Printed bytes contain neither the separator nor a dash. -/
theorem printByte_chars : ∀ b < 256, ':' ∉ printByte b ∧ '-' ∉ printByte b := by
  decide

/-- Elements of an interspersed list are the separator or original elements. -/
theorem mem_intersperse {α : Type _} {sep x : α} :
    ∀ {l : List α}, x ∈ l.intersperse sep → x = sep ∨ x ∈ l := by
  intro l
  induction l with
  | nil => simp
  | cons a t ih =>
      cases t with
      | nil =>
          intro hx
          simp at hx
          exact Or.inr (by simp [hx])
      | cons b t2 =>
          intro hx
          rw [List.intersperse_cons₂, List.mem_cons, List.mem_cons] at hx
          rcases hx with h | h | h
          · exact Or.inr (by simp [h])
          · exact Or.inl h
          · rcases ih h with h2 | h2
            · exact Or.inl h2
            · exact Or.inr (List.mem_cons_of_mem _ h2)

/-- Characters of a printed address are colons or characters of the
printed octets. -/
theorem mem_printAddr {c : Char} {bs : List Nat} (h : c ∈ printAddr bs) :
    c = ':' ∨ ∃ b ∈ bs, c ∈ printByte b := by
  unfold printAddr List.intercalate at h
  rw [List.mem_flatten] at h
  obtain ⟨piece, hpiece, hc⟩ := h
  rcases mem_intersperse hpiece with h1 | h1
  · subst h1
    simp at hc
    exact Or.inl hc
  · rw [List.mem_map] at h1
    obtain ⟨b, hb, rfl⟩ := h1
    exact Or.inr ⟨b, hb, hc⟩

/-- On byte input `replace("-", ":")` does not change a printed address. -/
theorem replaceDash_printAddr (bs : List Nat) (hb : ∀ b ∈ bs, b < 256) :
    replaceDash (printAddr bs) = printAddr bs := by
  unfold replaceDash
  have hcongr : (printAddr bs).map (fun c => if c = '-' then ':' else c) =
      (printAddr bs).map id := by
    refine List.map_congr_left ?_
    intro c hc
    rcases mem_printAddr hc with rfl | ⟨b, hbmem, hcb⟩
    · simp
    · have hnd := (printByte_chars b (hb b hbmem)).2
      have hcd : c ≠ '-' := fun h => hnd (h ▸ hcb)
      simp [hcd]
  rw [hcongr, List.map_id]

/-- Splitting a printed address on `:` recovers the printed octets. -/
theorem splitOn_printAddr (bs : List Nat) (hb : ∀ b ∈ bs, b < 256)
    (hne : bs ≠ []) :
    (replaceDash (printAddr bs)).splitOn ':' = bs.map printByte := by
  rw [replaceDash_printAddr bs hb]
  refine List.splitOn_intercalate (bs.map printByte) ':' ?_ ?_
  · intro l hl
    rw [List.mem_map] at hl
    obtain ⟨b, hbmem, rfl⟩ := hl
    exact (printByte_chars b (hb b hbmem)).1
  · simpa using hne

/-- Parsing all printed octets of a byte list yields the bytes as ints. -/
theorem mapM_parse_printByte :
    ∀ (bs : List Nat), (∀ b ∈ bs, b < 256) →
      (bs.map printByte).mapM pyIntBase16 = some (bs.map (fun (b : Nat) => (b : Int))) := by
  intro bs
  induction bs with
  | nil => intro _; rfl
  | cons b t ih =>
      intro hb
      rw [List.map_cons, List.mapM_cons, printByte_parse b (hb b (by simp)),
        List.map_cons, ih (fun x hx => hb x (by simp [hx]))]
      rfl

/-- Every byte of `_bt_ah`'s output is below 256 (the final AES step is an
AddRoundKey, which produces bytes). -/
theorem bt_ah_mem_lt (irk p : List Nat) : ∀ x ∈ bt_ah irk p, x < 256 := by
  intro x hx
  have hx2 : x ∈ aes128Encrypt irk (List.replicate 13 0 ++ p) :=
    List.mem_of_mem_drop hx
  simp only [aes128Encrypt, addRoundKeyL, List.mem_map] at hx2
  obtain ⟨i, _, rfl⟩ := hx2
  exact Nat.mod_lt _ (by norm_num)

/-- The `_bt_ah` hash is 3 bytes long. -/
theorem bt_ah_length (irk p : List Nat) : (bt_ah irk p).length = 3 := by
  simp [bt_ah, aes128Encrypt, addRoundKeyL]

/-- Resolution succeeds on every address crafted as `prand ++ ah(irk, prand)`
with an RPA-shaped prand; shared backbone of several claims. -/
theorem resolve_crafted (k p : List Nat)
    (hp : p.length = 3) (hpb : ∀ b ∈ p, b < 256)
    (htop : p.getD 0 0 >>> 6 = 1) :
    resolve_rpa k (printAddr (p ++ bt_ah k p)) = true := by
  obtain ⟨p0, p1, p2, rfl⟩ : ∃ a b c, p = [a, b, c] := by
    rcases p with _ | ⟨a, _ | ⟨b, _ | ⟨c, _ | ⟨d, t⟩⟩⟩⟩ <;>
      first
        | exact ⟨_, _, _, rfl⟩
        | simp at hp
  have hbs : ∀ b ∈ [p0, p1, p2] ++ bt_ah k [p0, p1, p2], b < 256 := by
    intro b hb
    rcases List.mem_append.mp hb with h | h
    · exact hpb b h
    · exact bt_ah_mem_lt k [p0, p1, p2] b h
  have hlen : ([p0, p1, p2] ++ bt_ah k [p0, p1, p2]).length = 6 := by
    simp [bt_ah_length]
  have hall : (([p0, p1, p2] ++ bt_ah k [p0, p1, p2]).map
      (fun (b : Nat) => (b : Int))).all (fun v => 0 ≤ v && v < 256) = true := by
    rw [List.all_eq_true]
    intro v hv
    rw [List.mem_map] at hv
    obtain ⟨b, hb, rfl⟩ := hv
    have := hbs b hb
    simp only [Bool.and_eq_true, decide_eq_true_eq]
    omega
  have hback : (([p0, p1, p2] ++ bt_ah k [p0, p1, p2]).map
      (fun (b : Nat) => (b : Int))).map Int.toNat =
      [p0, p1, p2] ++ bt_ah k [p0, p1, p2] := by
    rw [List.map_map]
    refine (List.map_congr_left ?_).trans (List.map_id _)
    intro b _
    simp
  simp only [List.getD_cons_zero] at htop
  have hrpa : is_rpa ([p0, p1, p2] ++ bt_ah k [p0, p1, p2]) = true := by
    simp [is_rpa, hlen, htop, bt_ah_length]
  unfold resolve_rpa
  simp only [splitOn_printAddr _ hbs (by simp), mapM_parse_printByte _ hbs,
    List.length_map, hlen, ne_eq, not_true_eq_false, if_false, hall, if_true,
    hback, hrpa]
  rw [List.take_left' (by simp : ([p0, p1, p2] : List Nat).length = 3),
    List.drop_left' (by simp : ([p0, p1, p2] : List Nat).length = 3)]
  exact beq_self_eq_true _

/-! ## C1: RPA resolution round-trip -/

/-- C1.  For every 16-byte IRK `k` and every 3-byte prand `p` whose top two
bits are `01`, building the 6-byte address `p ++ ah(k, p)` (AES-128-ECB of
13 zero bytes and `p` under `k`, last 3 ciphertext bytes), printing it as
six colon-separated hex octets and resolving the printed string against
`k` returns `true`. -/
theorem c1_rpa_resolution_roundtrip (k p : List Nat)
    (hk : k.length = 16) (hkb : ∀ b ∈ k, b < 256)
    (hp : p.length = 3) (hpb : ∀ b ∈ p, b < 256)
    (htop : p.getD 0 0 >>> 6 = 1) :
    resolve_rpa k (printAddr (p ++ bt_ah k p)) = true :=
  resolve_crafted k p hp hpb htop

/-- Concrete 16-byte IRK (the one the repository's tests use). -/
def irkA : List Nat :=
  [0x01, 0x23, 0x45, 0x67, 0x89, 0xab, 0xcd, 0xef,
   0x01, 0x23, 0x45, 0x67, 0x89, 0xab, 0xcd, 0xef]

/-- A second, different 16-byte IRK (also from the repository's tests). -/
def irkB : List Nat :=
  [0xfe, 0xdc, 0xba, 0x98, 0x76, 0x54, 0x32, 0x10,
   0xfe, 0xdc, 0xba, 0x98, 0x76, 0x54, 0x32, 0x10]

/-- Witness for C1 at a concrete IRK and prand. -/
theorem c1_witness :
    resolve_rpa irkA (printAddr ([0x44, 0x22, 0x33] ++ bt_ah irkA [0x44, 0x22, 0x33])) = true :=
  c1_rpa_resolution_roundtrip irkA [0x44, 0x22, 0x33]
    (by decide) (by decide) (by decide) (by decide) (by decide)

/-! ## C3 and C7: the distance estimator -/

/-- Unfolding the environment table lookup with its default. -/
theorem envN_eq (env : PyStr) :
    envN env =
      (if env = "free_space".toList then 2
       else if env = "outdoor".toList then 11 / 5
       else if env = "indoor".toList then 3
       else (2 : ℚ)) := by
  unfold envN envPathLoss
  by_cases h1 : env = "free_space".toList
  · simp only [List.lookup, beq_iff_eq.mpr h1, Option.getD, if_pos h1]
  · have b1 : (env == "free_space".toList) = false := beq_eq_false_iff_ne.mpr h1
    by_cases h2 : env = "outdoor".toList
    · simp only [List.lookup, b1, beq_iff_eq.mpr h2, Option.getD,
        if_neg h1, if_pos h2]
    · have b2 : (env == "outdoor".toList) = false := beq_eq_false_iff_ne.mpr h2
      by_cases h3 : env = "indoor".toList
      · simp only [List.lookup, b1, b2, beq_iff_eq.mpr h3, Option.getD,
          if_neg h1, if_neg h2, if_pos h3]
      · have b3 : (env == "indoor".toList) = false := beq_eq_false_iff_ne.mpr h3
        simp only [List.lookup, b1, b2, b3, Option.getD,
          if_neg h1, if_neg h2, if_neg h3]

/-- C3.  The distance estimator agrees with the specification's description
on every input: `none` exactly for the `rssi == 0` sentinel or when both
`ref_rssi` and `tx_power` are absent, otherwise
`10 ^ ((measured_power - rssi) / (10 * n))` with `ref_rssi` taking priority
over `tx_power - 59`, and unknown environments falling back to the
free-space exponent instead of failing. -/
theorem c3_estimate_distance_spec (rssi : Int) (txPower : Option Int)
    (env : PyStr) (refRssi : Option Int) :
    estimate_distance rssi txPower env refRssi =
      spec_estimate rssi txPower env refRssi := by
  unfold estimate_distance spec_estimate measuredPower defaultRefOffset
  rcases refRssi with _ | r <;> rcases txPower with _ | t <;>
    by_cases hr : rssi = 0 <;>
      simp [hr, envN_eq]

/-- Counterexample to C7 as stated: at `rssi = -50`, `tx_power = 0`
(`measured_power = -59 > rssi`, i.e. nearer than the 1-metre reference),
the indoor estimate is strictly GREATER than the free-space estimate. -/
theorem c7_counterexample :
    estimate_distance (-50) (some 0) "indoor".toList none =
      some ((10 : ℝ) ^ ((-9 : ℝ) / 30)) ∧
    estimate_distance (-50) (some 0) "free_space".toList none =
      some ((10 : ℝ) ^ ((-9 : ℝ) / 20)) ∧
    (10 : ℝ) ^ ((-9 : ℝ) / 20) < (10 : ℝ) ^ ((-9 : ℝ) / 30) := by
  refine ⟨?_, ?_, ?_⟩
  · unfold estimate_distance measuredPower defaultRefOffset
    rw [show envN "indoor".toList = 3 from by decide]
    norm_num
  · unfold estimate_distance measuredPower defaultRefOffset
    rw [show envN "free_space".toList = 2 from by decide]
    norm_num
  · rw [Real.rpow_lt_rpow_left_iff (by norm_num : (1 : ℝ) < 10)]
    norm_num

/-- C7 (amended).  For identical non-zero `rssi` and calibration inputs for
which both estimates are defined, and with `rssi` strictly below the derived
`measured_power` (i.e. an estimated distance beyond the 1-metre reference),
the indoor estimate is strictly less than the free-space estimate.  (At
`rssi = measured_power` the two estimates are equal, and for
`rssi > measured_power` the inequality reverses, per the counterexample.) -/
theorem c7_indoor_below_free_space (rssi : Int) (txPower refRssi : Option Int)
    (mp : Int) (hmp : measuredPower txPower refRssi = some mp)
    (h0 : rssi ≠ 0) (hlt : rssi < mp) :
    ∃ d1 d2,
      estimate_distance rssi txPower "indoor".toList refRssi = some d1 ∧
      estimate_distance rssi txPower "free_space".toList refRssi = some d2 ∧
      d1 < d2 := by
  have e1 : (10 : ℝ) * ((envN "indoor".toList : ℚ) : ℝ) = 30 := by
    rw [show envN "indoor".toList = 3 from by decide]
    norm_num
  have e2 : (10 : ℝ) * ((envN "free_space".toList : ℚ) : ℝ) = 20 := by
    rw [show envN "free_space".toList = 2 from by decide]
    norm_num
  refine ⟨(10 : ℝ) ^ (((mp - rssi : Int) : ℝ) / (10 * ((envN "indoor".toList : ℚ) : ℝ))),
    (10 : ℝ) ^ (((mp - rssi : Int) : ℝ) / (10 * ((envN "free_space".toList : ℚ) : ℝ))),
    ?_, ?_, ?_⟩
  · unfold estimate_distance
    rw [if_neg h0, hmp]
  · unfold estimate_distance
    rw [if_neg h0, hmp]
  · rw [e1, e2, Real.rpow_lt_rpow_left_iff (by norm_num : (1 : ℝ) < 10)]
    have hpos : (0 : ℝ) < ((mp - rssi : Int) : ℝ) := by
      have : (0 : Int) < mp - rssi := by omega
      exact_mod_cast this
    exact (div_lt_div_left hpos (by norm_num) (by norm_num)).mpr (by norm_num)

/-- Witness for the amended C7 at `rssi = -70`, `tx_power = 0`. -/
theorem c7_witness :
    ∃ d1 d2,
      estimate_distance (-70) (some 0) "indoor".toList none = some d1 ∧
      estimate_distance (-70) (some 0) "free_space".toList none = some d2 ∧
      d1 < d2 :=
  c7_indoor_below_free_space (-70) (some 0) none (-59)
    (by decide) (by decide) (by decide)

/-! ## C6: the RSSI smoother -/

/-- Appending to a saturated window is appending to the full history. -/
theorem lastN_append_one (w : Nat) (l : List Int) (r : Int) :
    lastN w (lastN w l ++ [r]) = lastN w (l ++ [r]) := by
  unfold lastN
  rw [show (l ++ [r]).length = l.length + 1 by simp]
  rw [← List.drop_append_of_le_length (by omega : l.length - w ≤ l.length),
    List.drop_drop]
  congr 1
  simp only [List.length_drop, List.length_append, List.length_cons,
    List.length_nil]
  omega

/-- Folding pushes over a saturated starting window tracks the full
sequence of readings. -/
theorem foldl_window_fst (w : Nat) :
    ∀ (rs : List Int) (pre : List Int) (a : Option Int),
      ((rs.foldl (fun acc r =>
          ((avgRssiStep w acc.1 r).1, some ((avgRssiStep w acc.1 r).2)))
          (lastN w pre, a)).1) = lastN w (pre ++ rs) := by
  intro rs
  induction rs with
  | nil => intro pre a; simp
  | cons r rs' ih =>
      intro pre a
      rw [List.foldl_cons]
      show (rs'.foldl (fun acc r =>
          ((avgRssiStep w acc.1 r).1, some ((avgRssiStep w acc.1 r).2)))
          ((avgRssiStep w (lastN w pre) r).1,
           some ((avgRssiStep w (lastN w pre) r).2))).1 =
        lastN w (pre ++ r :: rs')
      have step1 : (avgRssiStep w (lastN w pre) r).1 = lastN w (pre ++ [r]) := by
        simp only [avgRssiStep]
        exact lastN_append_one w pre r
      rw [step1, ih (pre ++ [r]) (some ((avgRssiStep w (lastN w pre) r).2))]
      simp

/-- The window after any sequence of pushes holds the last `w` readings. -/
theorem runWindow_fst (w : Nat) (rs : List Int) :
    (runWindow w rs).1 = lastN w rs := by
  have h := foldl_window_fst w rs [] none
  simpa [runWindow, lastN] using h

/-- Python `round` of an integer is that integer. -/
theorem pyRound_intCast (z : Int) : pyRound ((z : Int) : ℚ) = z := by
  unfold pyRound
  norm_num

/-- C6.  RSSI smoothing with configured window size `w` (clamped to a
minimum capacity of 1): the per-address window never holds more than the
capacity; once at least capacity-many readings `r1..rn` have been pushed,
the last push returns the rounded mean of exactly the last capacity-many
readings; and with window size 1 every push returns the raw reading. -/
theorem c6_rssi_window (w : Nat) :
    (∀ rs : List Int, ((runWindow (max 1 w) rs).1).length ≤ max 1 w) ∧
    (∀ rs : List Int, rs ≠ [] → max 1 w ≤ rs.length →
      (runWindow (max 1 w) rs).2 =
        some (pyRound (((lastN (max 1 w) rs).sum : ℚ) / ((max 1 w : Nat) : ℚ)))) ∧
    (∀ (hist : List Int) (r : Int), (avgRssiStep 1 hist r).2 = r) := by
  refine ⟨?_, ?_, ?_⟩
  · intro rs
    rw [runWindow_fst]
    unfold lastN
    simp only [List.length_drop]
    omega
  · intro rs hne hlen
    rcases List.eq_nil_or_concat rs with rfl | ⟨rs', r, rfl⟩
    · exact absurd rfl hne
    · rw [List.concat_eq_append] at hlen ⊢
      have hsplit : runWindow (max 1 w) (rs' ++ [r]) =
          ((avgRssiStep (max 1 w) (runWindow (max 1 w) rs').1 r).1,
           some ((avgRssiStep (max 1 w) (runWindow (max 1 w) rs').1 r).2)) := by
        unfold runWindow
        rw [List.foldl_append, List.foldl_cons, List.foldl_nil]
      rw [hsplit, runWindow_fst]
      simp only [avgRssiStep]
      rw [lastN_append_one]
      have hlenw : (lastN (max 1 w) (rs' ++ [r])).length = max 1 w := by
        unfold lastN
        simp only [List.length_drop, List.length_append, List.length_cons,
          List.length_nil]
        simp only [List.length_append, List.length_cons, List.length_nil] at hlen
        omega
      rw [hlenw]
  · intro hist r
    unfold avgRssiStep
    have h1 : lastN 1 (hist ++ [r]) = [r] := by
      unfold lastN
      rw [show (hist ++ [r]).length - 1 = hist.length by simp]
      exact List.drop_left hist [r]
    rw [h1]
    simpa using pyRound_intCast r

/-- Witness for C6 at window size 2 and readings `[-10, -20, -31]`. -/
theorem c6_witness :
    ([-10, -20, -31] : List Int) ≠ [] ∧
    max 1 2 ≤ ([-10, -20, -31] : List Int).length ∧
    (runWindow (max 1 2) [-10, -20, -31]).2 =
      some (pyRound (((lastN (max 1 2) [-10, -20, -31]).sum : ℚ) /
        ((max 1 2 : Nat) : ℚ))) :=
  ⟨by decide, by decide,
    (c6_rssi_window 2).2.1 [-10, -20, -31] (by decide) (by decide)⟩

/-! ## Dict lemmas -/

/-- Writing an already-present key makes it read back (overwrite case). -/
theorem lookup_map_overwrite {β : Type _} (k : PyStr) (v : β) :
    ∀ d : Dict β, (d.lookup k).isSome →
      (d.map (fun p => if p.1 = k then (k, v) else p)).lookup k = some v := by
  intro d
  induction d with
  | nil => intro h; simp at h
  | cons p t ih =>
      obtain ⟨a, b⟩ := p
      intro h
      by_cases hk : a = k
      · subst hk
        simp [List.lookup_cons]
      · have hb : (k == a) = false := beq_eq_false_iff_ne.mpr fun he => hk he.symm
        simp only [List.lookup_cons, hb] at h
        simp [List.lookup_cons, hk, hb, ih h]

/-- Reading the written key of a dict write gives the written value. -/
theorem lookup_dictSet_self {β : Type _} (d : Dict β) (k : PyStr) (v : β) :
    (dictSet d k v).lookup k = some v := by
  unfold dictSet
  split
  case isTrue h => exact lookup_map_overwrite k v d h
  case isFalse h =>
      induction d with
      | nil => simp
      | cons p t ih =>
          obtain ⟨a, b⟩ := p
          by_cases hk : k = a
          · subst hk
            simp at h
          · have hb : (k == a) = false := beq_eq_false_iff_ne.mpr hk
            simp only [List.lookup_cons, hb] at h
            simpa [List.lookup_cons, hb] using ih h

/-- Overwriting a present key leaves other keys' lookups unchanged. -/
theorem lookup_map_overwrite_ne {β : Type _} (k k' : PyStr) (v : β)
    (h : k' ≠ k) :
    ∀ d : Dict β,
      (d.map (fun p => if p.1 = k then (k, v) else p)).lookup k' = d.lookup k' := by
  have hb : (k' == k) = false := beq_eq_false_iff_ne.mpr h
  intro d
  induction d with
  | nil => simp
  | cons p t ih =>
      obtain ⟨a, b⟩ := p
      by_cases hk : a = k
      · subst hk
        simp [List.lookup_cons, hb, ih]
      · simp [List.lookup_cons, hk, ih]

/-- Reading any other key after a dict write is unchanged. -/
theorem lookup_dictSet_ne {β : Type _} (d : Dict β) (k k' : PyStr) (v : β)
    (h : k' ≠ k) : (dictSet d k v).lookup k' = d.lookup k' := by
  have hb : (k' == k) = false := beq_eq_false_iff_ne.mpr h
  unfold dictSet
  split
  · exact lookup_map_overwrite_ne k k' v h d
  · rw [List.lookup_append]
    simp [List.lookup_cons, hb]

/-! ## C9: best-GPS replacement discipline

`_record_device` is the only code that writes `device_best_gps`, and it is
called once per accepted, record-producing detection event; the per-call
equation below therefore covers every step of every scan run. -/

/-- C9.  With a GPS fix present, the stored best-GPS entry for the
detection's address is replaced exactly when there is no stored entry yet
or the new detection's raw RSSI is strictly greater than the stored one;
in every other case the stored entry is kept unchanged. -/
theorem c9_best_gps_replacement (cfg : Config) (st : ScanState) (e : Event)
    (fix : Fix) (label : PyStr) (resolved : Option Bool) (avg : Option Int) :
    ((recordDevice { cfg with gps_fix := some fix } st e label resolved
        avg).1).device_best_gps.lookup (upperAddr e) =
      (match st.device_best_gps.lookup (upperAddr e) with
       | none => some { lat := fix.lat, lon := fix.lon, rssi := e.rssi }
       | some best =>
           if best.rssi < e.rssi then
             some { lat := fix.lat, lon := fix.lon, rssi := e.rssi }
           else some best) := by
  unfold recordDevice
  cases hbest : st.device_best_gps.lookup (upperAddr e) with
  | none => simp [hbest, lookup_dictSet_self]
  | some best =>
      by_cases hlt : best.rssi < e.rssi
      · simp [hbest, hlt, lookup_dictSet_self]
      · simp [hbest, hlt]

/-- Other addresses' best-GPS entries are untouched by `_record_device`. -/
theorem recordDevice_best_gps_frame (cfg : Config) (st : ScanState) (e : Event)
    (label : PyStr) (resolved : Option Bool) (avg : Option Int) (b : PyStr)
    (hb : b ≠ upperAddr e) :
    ((recordDevice cfg st e label resolved avg).1).device_best_gps.lookup b =
      st.device_best_gps.lookup b := by
  unfold recordDevice
  cases hf : cfg.gps_fix with
  | none => simp
  | some fix =>
      cases hbest : st.device_best_gps.lookup (upperAddr e) with
      | none => simp [hbest, lookup_dictSet_ne _ _ _ _ hb]
      | some best =>
          by_cases hlt : best.rssi < e.rssi
          · simp [hbest, hlt, lookup_dictSet_ne _ _ _ _ hb]
          · simp [hbest, hlt]

/-- All `ScanState` fields other than `device_best_gps` are untouched by
`_record_device`. -/
theorem recordDevice_fields (cfg : Config) (st : ScanState) (e : Event)
    (label : PyStr) (resolved : Option Bool) (avg : Option Int) :
    ((recordDevice cfg st e label resolved avg).1).seen_count = st.seen_count ∧
    ((recordDevice cfg st e label resolved avg).1).unique_devices = st.unique_devices ∧
    ((recordDevice cfg st e label resolved avg).1).resolved_devices = st.resolved_devices ∧
    ((recordDevice cfg st e label resolved avg).1).rpa_count = st.rpa_count ∧
    ((recordDevice cfg st e label resolved avg).1).non_rpa_warned = st.non_rpa_warned ∧
    ((recordDevice cfg st e label resolved avg).1).rssi_history = st.rssi_history := by
  unfold recordDevice
  cases hf : cfg.gps_fix with
  | none => simp
  | some fix =>
      cases hbest : st.device_best_gps.lookup (upperAddr e) with
      | none => simp [hbest]
      | some best =>
          by_cases hlt : best.rssi < e.rssi
          · simp [hbest, hlt]
          · simp [hbest, hlt]

/-- Projection of `recordDevice_fields`: `seen_count`. -/
theorem recordDevice_seen (cfg : Config) (st : ScanState) (e : Event)
    (label : PyStr) (resolved : Option Bool) (avg : Option Int) :
    ((recordDevice cfg st e label resolved avg).1).seen_count = st.seen_count :=
  (recordDevice_fields cfg st e label resolved avg).1

/-- Projection of `recordDevice_fields`: `unique_devices`. -/
theorem recordDevice_unique (cfg : Config) (st : ScanState) (e : Event)
    (label : PyStr) (resolved : Option Bool) (avg : Option Int) :
    ((recordDevice cfg st e label resolved avg).1).unique_devices = st.unique_devices :=
  (recordDevice_fields cfg st e label resolved avg).2.1

/-- Projection of `recordDevice_fields`: `resolved_devices`. -/
theorem recordDevice_resolved (cfg : Config) (st : ScanState) (e : Event)
    (label : PyStr) (resolved : Option Bool) (avg : Option Int) :
    ((recordDevice cfg st e label resolved avg).1).resolved_devices = st.resolved_devices :=
  (recordDevice_fields cfg st e label resolved avg).2.2.1

/-- Projection of `recordDevice_fields`: `rpa_count`. -/
theorem recordDevice_rpa (cfg : Config) (st : ScanState) (e : Event)
    (label : PyStr) (resolved : Option Bool) (avg : Option Int) :
    ((recordDevice cfg st e label resolved avg).1).rpa_count = st.rpa_count :=
  (recordDevice_fields cfg st e label resolved avg).2.2.2.1

/-- Projection of `recordDevice_fields`: `non_rpa_warned`. -/
theorem recordDevice_warned (cfg : Config) (st : ScanState) (e : Event)
    (label : PyStr) (resolved : Option Bool) (avg : Option Int) :
    ((recordDevice cfg st e label resolved avg).1).non_rpa_warned = st.non_rpa_warned :=
  (recordDevice_fields cfg st e label resolved avg).2.2.2.2.1

/-- Projection of `recordDevice_fields`: `rssi_history`. -/
theorem recordDevice_history (cfg : Config) (st : ScanState) (e : Event)
    (label : PyStr) (resolved : Option Bool) (avg : Option Int) :
    ((recordDevice cfg st e label resolved avg).1).rssi_history = st.rssi_history :=
  (recordDevice_fields cfg st e label resolved avg).2.2.2.2.2

/-! ## C10: per-address isolation -/

/-- Frame property of `_irk_detection` with respect to every address other
than the processed one. -/
theorem irkDetection_frame (cfg : Config) (st : ScanState) (e : Event)
    (addr : PyStr) (avg : Option Int) (b : PyStr) (hb : b ≠ addr)
    (hbe : b ≠ upperAddr e) :
    ((irkDetection cfg st e addr avg).1.rssi_history.lookup b =
      st.rssi_history.lookup b) ∧
    ((irkDetection cfg st e addr avg).1.unique_devices.lookup b =
      st.unique_devices.lookup b) ∧
    ((irkDetection cfg st e addr avg).1.resolved_devices.lookup b =
      st.resolved_devices.lookup b) ∧
    ((irkDetection cfg st e addr avg).1.device_best_gps.lookup b =
      st.device_best_gps.lookup b) ∧
    ((b ∈ (irkDetection cfg st e addr avg).1.non_rpa_warned) ↔
      b ∈ st.non_rpa_warned) := by
  by_cases hu : isUuidAddr addr = true
  · by_cases hw : addr ∈ st.non_rpa_warned
    · simp [irkDetection, hu, hw]
    · by_cases hq : (!cfg.quiet && !cfg.tui && !cfg.gui) = true
      · simp [irkDetection, hu, hw, hq, hb]
      · simp [irkDetection, hu, hw, hq, hb]
  · by_cases hres : (resolveLoop cfg.irks addr).1 = true
    · simp [irkDetection, printDevice, hu, hres, recordDevice_history,
        recordDevice_unique, recordDevice_resolved, recordDevice_warned,
        recordDevice_best_gps_frame, lookup_dictSet_ne, hb, hbe]
    · by_cases hv : cfg.verbose = true
      · simp [irkDetection, printDevice, hu, hres, hv, recordDevice_history,
          recordDevice_unique, recordDevice_resolved, recordDevice_warned,
          recordDevice_best_gps_frame, lookup_dictSet_ne, hb, hbe]
      · simp [irkDetection, hu, hres, hv, lookup_dictSet_ne, hb]

/-- The window step does not touch the non-window fields. -/
theorem applyWindow_fields (cfg : Config) (st : ScanState) (e : Event) :
    ((applyWindow cfg st e).1.seen_count = st.seen_count) ∧
    ((applyWindow cfg st e).1.unique_devices = st.unique_devices) ∧
    ((applyWindow cfg st e).1.resolved_devices = st.resolved_devices) ∧
    ((applyWindow cfg st e).1.rpa_count = st.rpa_count) ∧
    ((applyWindow cfg st e).1.non_rpa_warned = st.non_rpa_warned) ∧
    ((applyWindow cfg st e).1.device_best_gps = st.device_best_gps) := by
  unfold applyWindow
  by_cases hw : 1 < max 1 cfg.rssi_window <;> simp [hw]

/-- The window step only touches the window of the event's address. -/
theorem applyWindow_history_frame (cfg : Config) (st : ScanState) (e : Event)
    (b : PyStr) (hb : b ≠ upperAddr e) :
    (applyWindow cfg st e).1.rssi_history.lookup b =
      st.rssi_history.lookup b := by
  unfold applyWindow
  by_cases hw : 1 < max 1 cfg.rssi_window <;>
    simp [hw, lookup_dictSet_ne, hb]

/-- Frame property of the mode dispatch for every other address. -/
theorem modeDispatch_frame (cfg : Config) (st : ScanState) (e : Event)
    (avg : Option Int) (b : PyStr) (hb : b ≠ upperAddr e) :
    ((modeDispatch cfg st e avg).1.rssi_history.lookup b =
      st.rssi_history.lookup b) ∧
    ((modeDispatch cfg st e avg).1.unique_devices.lookup b =
      st.unique_devices.lookup b) ∧
    ((modeDispatch cfg st e avg).1.resolved_devices.lookup b =
      st.resolved_devices.lookup b) ∧
    ((modeDispatch cfg st e avg).1.device_best_gps.lookup b =
      st.device_best_gps.lookup b) ∧
    ((b ∈ (modeDispatch cfg st e avg).1.non_rpa_warned) ↔
      b ∈ st.non_rpa_warned) := by
  by_cases hirk : cfg.irks = []
  case neg =>
    unfold modeDispatch
    rw [if_pos hirk]
    exact irkDetection_frame cfg st e (upperAddr e) avg b hb hb
  case pos =>
    unfold modeDispatch
    rw [if_neg (not_not_intro hirk)]
    rcases ht : cfg.target_mac with _ | tgt
    · simp [printDevice, recordDevice_history, recordDevice_unique,
        recordDevice_resolved, recordDevice_warned,
        recordDevice_best_gps_frame, lookup_dictSet_ne, hb]
    · by_cases hc : strContains (upperAddr e) tgt = true
      · simp [hc, printDevice, recordDevice_history, recordDevice_unique,
          recordDevice_resolved, recordDevice_warned,
          recordDevice_best_gps_frame, hb]
      · simp [hc]

/-- C10.  Processing one detection event only touches per-address state at
the event's uppercased address: for every other address `b`, the RSSI
window, `times_seen` count, resolved count, best-GPS entry and warned-set
membership of `b` are unchanged. -/
theorem c10_per_address_isolation (cfg : Config) (st : ScanState) (e : Event)
    (b : PyStr) (hb : b ≠ upperAddr e) :
    ((detectionCallbackInner cfg st e).1.rssi_history.lookup b =
      st.rssi_history.lookup b) ∧
    ((detectionCallbackInner cfg st e).1.unique_devices.lookup b =
      st.unique_devices.lookup b) ∧
    ((detectionCallbackInner cfg st e).1.resolved_devices.lookup b =
      st.resolved_devices.lookup b) ∧
    ((detectionCallbackInner cfg st e).1.device_best_gps.lookup b =
      st.device_best_gps.lookup b) ∧
    ((b ∈ (detectionCallbackInner cfg st e).1.non_rpa_warned) ↔
      b ∈ st.non_rpa_warned) := by
  obtain ⟨g1, g2, g3, g4, g5, g6⟩ := applyWindow_fields cfg st e
  have g0 := applyWindow_history_frame cfg st e b hb
  obtain ⟨h1, h2, h3, h4, h5⟩ :=
    modeDispatch_frame cfg (applyWindow cfg st e).1 e (applyWindow cfg st e).2 b hb
  have hWin :
      ((applyWindow cfg st e).1.rssi_history.lookup b = st.rssi_history.lookup b) ∧
      ((applyWindow cfg st e).1.unique_devices.lookup b = st.unique_devices.lookup b) ∧
      ((applyWindow cfg st e).1.resolved_devices.lookup b = st.resolved_devices.lookup b) ∧
      ((applyWindow cfg st e).1.device_best_gps.lookup b = st.device_best_gps.lookup b) ∧
      ((b ∈ (applyWindow cfg st e).1.non_rpa_warned) ↔ b ∈ st.non_rpa_warned) := by
    rw [g2, g3, g5, g6]
    exact ⟨g0, rfl, rfl, rfl, Iff.rfl⟩
  have hDispatch :
      ((modeDispatch cfg (applyWindow cfg st e).1 e (applyWindow cfg st e).2).1.rssi_history.lookup b =
        st.rssi_history.lookup b) ∧
      ((modeDispatch cfg (applyWindow cfg st e).1 e (applyWindow cfg st e).2).1.unique_devices.lookup b =
        st.unique_devices.lookup b) ∧
      ((modeDispatch cfg (applyWindow cfg st e).1 e (applyWindow cfg st e).2).1.resolved_devices.lookup b =
        st.resolved_devices.lookup b) ∧
      ((modeDispatch cfg (applyWindow cfg st e).1 e (applyWindow cfg st e).2).1.device_best_gps.lookup b =
        st.device_best_gps.lookup b) ∧
      ((b ∈ (modeDispatch cfg (applyWindow cfg st e).1 e (applyWindow cfg st e).2).1.non_rpa_warned) ↔
        b ∈ st.non_rpa_warned) := by
    refine ⟨h1.trans hWin.1, h2.trans hWin.2.1, h3.trans hWin.2.2.1,
      h4.trans hWin.2.2.2.1, h5.trans hWin.2.2.2.2⟩
  unfold detectionCallbackInner
  rcases hm : cfg.min_rssi with _ | m
  · rcases hn : cfg.name_filter with _ | f
    · simp only [hm, hn, Bool.false_eq_true, if_false]
      exact hDispatch
    · by_cases hnf : strContains (pyLower (e.name.getD [])) (pyLower f) = true
      · simp only [hm, hn, hnf, Bool.not_true, Bool.false_eq_true, if_false]
        exact hDispatch
      · have hs := Bool.eq_false_iff.mpr hnf
        simp only [hm, hn, hs, Bool.not_false, Bool.false_eq_true, if_false]
        rw [if_pos trivial]
        exact hWin
  · by_cases hrej : ((applyWindow cfg st e).2.getD e.rssi < m)
    · simp only [hm, decide_eq_true_eq]
      rw [if_pos hrej]
      exact hWin
    · simp only [hm, decide_eq_true_eq]
      rw [if_neg hrej]
      rcases hn : cfg.name_filter with _ | f
      · simp only [hn, Bool.false_eq_true, if_false]
        exact hDispatch
      · by_cases hnf : strContains (pyLower (e.name.getD [])) (pyLower f) = true
        · simp only [hn, hnf, Bool.not_true, Bool.false_eq_true, if_false]
          exact hDispatch
        · have hs := Bool.eq_false_iff.mpr hnf
          simp only [hn, hs, Bool.not_false]
          rw [if_pos trivial]
          exact hWin

/-! ## Concrete fixtures shared by several claims -/

/-- Crafted RPA string for `irkA` with prand `44:22:33`
(`ah(irkA, 442233) = 0ED9E3`). -/
def addrA : PyStr := "44:22:33:0E:D9:E3".toList

/-- The same crafted address with a `0x` marker inside the first octet. -/
def addrX : PyStr := "0x44:22:33:0E:D9:E3".toList

/-- A platform-opaque identifier: 32 hex characters, no colons. -/
def addrU : PyStr := "12345678123456781234567812345678".toList

/-- A scanner configuration in IRK mode with no filters, no windowing,
no GPS and console printing enabled. -/
def cfgIrk (irks : List (List Nat)) : Config :=
  { irks := irks
    target_mac := none
    min_rssi := none
    name_filter := none
    rssi_window := 0
    verbose := false
    quiet := false
    tui := false
    gui := false
    ref_rssi := none
    environment := "free_space".toList
    gps_fix := none }

/-- A targeted-mode configuration looking for the substring `AA`. -/
def cfgTgt : Config :=
  { cfgIrk [] with target_mac := some "AA".toList }

/-- A detection event carrying the crafted RPA. -/
def eventA : Event :=
  { address := some addrA, rssi := -50, tx_power := none, name := none }

/-- A detection event carrying the platform-opaque identifier. -/
def eventU : Event :=
  { address := some addrU, rssi := -40, tx_power := none, name := none }

/-- A detection event whose address contains the target substring `AA`. -/
def eventT : Event :=
  { address := some "AA:BB:CC:DD:EE:FF".toList, rssi := -40, tx_power := none,
    name := none }

/-- The externally observable output: emitted records and printed
warnings, without the `tried` instrumentation. -/
def emitsOut (es : List Emit) : List Emit :=
  es.filter (fun x => match x with | Emit.tried _ => false | _ => true)

/-- Witness for C10 at a concrete state, event and other address. -/
theorem c10_witness :
    (("BB:BB:BB:BB:BB:BB".toList : PyStr) ≠ upperAddr eventT) ∧
    ((detectionCallbackInner cfgTgt initState eventT).1.unique_devices.lookup
        "BB:BB:BB:BB:BB:BB".toList =
      initState.unique_devices.lookup "BB:BB:BB:BB:BB:BB".toList) :=
  ⟨by decide,
    (c10_per_address_isolation cfgTgt initState eventT
      "BB:BB:BB:BB:BB:BB".toList (by decide)).2.1⟩

/-! ## C2: resolving against a list of IRKs -/

/-- C2 (amended).  The IRK loop tries the keys in list order and stops at
the first match: its boolean verdict is `any`, and the keys actually tried
are exactly the prefix of the list up to and including the first matching
key (the whole list when none matches).  The code reports only this
boolean verdict; it does not report which IRK matched. -/
theorem c2_irk_list_resolution (irks : List (List Nat)) (addr : PyStr) :
    resolveLoop irks addr =
      (irks.any (fun k => resolve_rpa k addr),
       (irks.take (irks.findIdx (fun k => resolve_rpa k addr) + 1)).map
         Emit.tried) := by
  induction irks with
  | nil => rfl
  | cons k rest ih =>
      by_cases hk : resolve_rpa k addr = true
      · simp [resolveLoop, hk, List.findIdx_cons, List.any_cons]
      · simp [resolveLoop, hk, List.findIdx_cons, List.any_cons, ih,
          List.take_succ_cons]

set_option maxRecDepth 1000000 in
/-- Counterexample to C2's "reports which IRK matched": with the same
crafted address, the IRK list `[irkA]` matches at position 0 after one
trial, and `[irkB, irkA]` matches at position 1 after two trials, yet the
entire observable output (records and warnings) is identical — nothing in
the output identifies which IRK matched. -/
theorem c2_counterexample :
    resolveLoop [irkA] addrA = (true, [Emit.tried irkA]) ∧
    resolveLoop [irkB, irkA] addrA =
      (true, [Emit.tried irkB, Emit.tried irkA]) ∧
    emitsOut (detectionCallbackInner (cfgIrk [irkA]) initState eventA).2 =
      emitsOut (detectionCallbackInner (cfgIrk [irkB, irkA]) initState eventA).2 :=
  ⟨by decide, by decide, by decide⟩

/-! ## C4: malformed addresses -/

/-- The parse stage of `_resolve_rpa`: split into octets, `int(·, 16)`
each, require six byte-sized values.  `none` is the caught-`ValueError`
path. -/
def parseAddrBytes (address : PyStr) : Option (List Nat) :=
  let parts := (replaceDash address).splitOn ':'
  if parts.length ≠ 6 then none
  else
    match parts.mapM pyIntBase16 with
    | none => none
    | some vals =>
        if vals.all (fun v => 0 ≤ v && v < 256) then some (vals.map Int.toNat)
        else none

set_option maxRecDepth 1000000 in
/-- Counterexample to C4 as stated: the address `0x44:22:33:0E:D9:E3` has
an octet containing the non-hex character `x`, yet it resolves to `true`
against `irkA`, because Python's `int(octet, 16)` accepts a `0x` marker. -/
theorem c4_counterexample :
    resolve_rpa irkA addrX = true ∧ hexVal 'x' = none ∧ 'x' ∈ addrX :=
  ⟨by decide, by decide, by decide⟩

/-- C4 (amended).  Resolution is total (never raises — parse failures are
values, not exceptions) and returns `false` for every address string whose
parse fails: wrong octet count, an octet rejected by Python's base-16
integer grammar, or an octet value outside one byte.  (Octets that the
grammar accepts despite non-hex characters — surrounding whitespace, a
sign, a `0x`/`0X` marker, underscores between digits — are not rejected.) -/
theorem c4_malformed_resolves_false (irk : List Nat) (address : PyStr)
    (h : parseAddrBytes address = none) : resolve_rpa irk address = false := by
  unfold parseAddrBytes at h
  unfold resolve_rpa
  by_cases hlen : ((replaceDash address).splitOn ':').length ≠ 6
  · rw [if_pos hlen]
  · rw [if_neg hlen]
    simp only [hlen, if_false] at h
    cases hmm : ((replaceDash address).splitOn ':').mapM pyIntBase16 with
    | none => simp only [hmm]
    | some vals =>
        simp only [hmm] at h ⊢
        by_cases hall : (vals.all fun v => 0 ≤ v && v < 256) = true
        · rw [if_pos hall] at h
          exact absurd h (by simp)
        · rw [if_neg hall]

/-- Witness for the amended C4 at a concrete junk address. -/
theorem c4_witness : resolve_rpa irkA "ZZ:ZZ:ZZ:ZZ:ZZ:ZZ".toList = false :=
  c4_malformed_resolves_false irkA "ZZ:ZZ:ZZ:ZZ:ZZ:ZZ".toList (by decide)

/-! ## C5: filtering and `times_seen` -/

/-- The minimum-RSSI filter rejects: a threshold is set and the effective
RSSI (windowed average when windowing is enabled, else raw) is below it. -/
def rssiRejects (cfg : Config) (st : ScanState) (e : Event) : Prop :=
  ∃ m, cfg.min_rssi = some m ∧ (applyWindow cfg st e).2.getD e.rssi < m

/-- The case-insensitive name-substring filter rejects. -/
def nameRejects (cfg : Config) (e : Event) : Prop :=
  ∃ f, cfg.name_filter = some f ∧
    strContains (pyLower (e.name.getD [])) (pyLower f) = false

/-- A rejected detection returns the post-window state with no output. -/
theorem callback_rejected (cfg : Config) (st : ScanState) (e : Event)
    (h : rssiRejects cfg st e ∨ nameRejects cfg e) :
    detectionCallbackInner cfg st e = ((applyWindow cfg st e).1, []) := by
  unfold detectionCallbackInner
  rcases h with ⟨m, hm, hlt⟩ | ⟨f, hf, hs⟩
  · simp only [hm, decide_eq_true_eq]
    rw [if_pos hlt]
  · rcases hm : cfg.min_rssi with _ | m
    · simp only [hm, hf, hs, Bool.not_false, Bool.false_eq_true, if_false]
      rw [if_pos trivial]
    · by_cases hlt : ((applyWindow cfg st e).2.getD e.rssi < m)
      · simp only [hm, decide_eq_true_eq]
        rw [if_pos hlt]
      · simp only [hm, decide_eq_true_eq]
        rw [if_neg hlt]
        simp only [hf, hs, Bool.not_false]
        rw [if_pos trivial]

/-- An accepted detection is handed to the mode dispatch on the
post-window state. -/
theorem callback_accepted (cfg : Config) (st : ScanState) (e : Event)
    (h1 : ¬ rssiRejects cfg st e) (h2 : ¬ nameRejects cfg e) :
    detectionCallbackInner cfg st e =
      modeDispatch cfg (applyWindow cfg st e).1 e (applyWindow cfg st e).2 := by
  unfold detectionCallbackInner
  have hname : ∀ f, cfg.name_filter = some f →
      strContains (pyLower (e.name.getD [])) (pyLower f) = true := by
    intro f hf
    by_contra hc
    exact h2 ⟨f, hf, Bool.eq_false_iff.mpr hc⟩
  rcases hm : cfg.min_rssi with _ | m
  · rcases hf : cfg.name_filter with _ | f
    · simp only [hm, hf, Bool.false_eq_true, if_false]
    · simp only [hm, hf, hname f hf, Bool.not_true, Bool.false_eq_true, if_false]
  · have hlt : ¬ ((applyWindow cfg st e).2.getD e.rssi < m) := fun hc => h1 ⟨m, hm, hc⟩
    simp only [hm, decide_eq_true_eq]
    rw [if_neg hlt]
    rcases hf : cfg.name_filter with _ | f
    · simp only [hf, Bool.false_eq_true, if_false]
    · simp only [hf, hname f hf, Bool.not_true, Bool.false_eq_true, if_false]

/-- Discover-all mode increments `times_seen` for the address exactly once. -/
theorem modeDispatch_discover_times (cfg : Config) (st : ScanState) (e : Event)
    (avg : Option Int) (hirk : cfg.irks = []) (ht : cfg.target_mac = none) :
    dictGet (modeDispatch cfg st e avg).1.unique_devices (upperAddr e) 0 =
      dictGet st.unique_devices (upperAddr e) 0 + 1 := by
  unfold modeDispatch
  rw [if_neg (not_not_intro hirk), ht]
  simp [printDevice, recordDevice_unique, dictGet, lookup_dictSet_self]

/-- IRK mode with a MAC-shaped address increments `times_seen` exactly once. -/
theorem modeDispatch_irk_times (cfg : Config) (st : ScanState) (e : Event)
    (avg : Option Int) (hirk : cfg.irks ≠ [])
    (huuid : isUuidAddr (upperAddr e) = false) :
    dictGet (modeDispatch cfg st e avg).1.unique_devices (upperAddr e) 0 =
      dictGet st.unique_devices (upperAddr e) 0 + 1 := by
  unfold modeDispatch irkDetection
  rw [if_pos hirk]
  simp only [huuid, Bool.false_eq_true, if_false]
  by_cases hres : (resolveLoop cfg.irks (upperAddr e)).1 = true
  · simp [hres, printDevice, recordDevice_unique, dictGet, lookup_dictSet_self]
  · by_cases hv : cfg.verbose = true
    · simp [hres, hv, printDevice, recordDevice_unique, dictGet, lookup_dictSet_self]
    · simp [hres, hv, dictGet, lookup_dictSet_self]

/-- IRK mode with a platform-opaque address leaves `times_seen` untouched. -/
theorem modeDispatch_uuid_times (cfg : Config) (st : ScanState) (e : Event)
    (avg : Option Int) (hirk : cfg.irks ≠ [])
    (huuid : isUuidAddr (upperAddr e) = true) :
    (modeDispatch cfg st e avg).1.unique_devices = st.unique_devices := by
  unfold modeDispatch irkDetection
  rw [if_pos hirk]
  simp only [huuid, if_true]
  by_cases hw : (upperAddr e) ∈ st.non_rpa_warned
  · simp [hw]
  · by_cases hq : (!cfg.quiet && !cfg.tui && !cfg.gui) = true
    · simp [hw, hq]
    · simp [hw, hq]

/-- Targeted mode never maintains `times_seen`. -/
theorem modeDispatch_target_times (cfg : Config) (st : ScanState) (e : Event)
    (avg : Option Int) (hirk : cfg.irks = []) (tgt : PyStr)
    (ht : cfg.target_mac = some tgt) :
    (modeDispatch cfg st e avg).1.unique_devices = st.unique_devices := by
  unfold modeDispatch
  rw [if_neg (not_not_intro hirk), ht]
  by_cases hc : strContains (upperAddr e) tgt = true
  · simp [hc, printDevice, recordDevice_unique]
  · simp [hc]

/-- Counterexample to C5's "every accepted detection event increments
`times_seen`": in targeted mode, an event that passes the (absent) filters
and emits a record still leaves `times_seen` untracked. -/
theorem c5_counterexample :
    (detectionCallbackInner cfgTgt initState eventT).2 ≠ [] ∧
    (detectionCallbackInner cfgTgt initState eventT).1.unique_devices.lookup
      (upperAddr eventT) = none ∧
    initState.unique_devices.lookup (upperAddr eventT) = none := by
  refine ⟨by decide, by decide, by decide⟩

/-- C5 (amended).  A detection rejected by the minimum-RSSI filter (on the
effective RSSI) or by the case-insensitive name filter changes neither the
per-address `times_seen` count nor the total detection count and emits
nothing (only the RSSI window may have been updated, since it is computed
before the filters).  An accepted detection increments `times_seen` for
its address exactly once in discover-all mode and in IRK mode for
MAC-shaped addresses; targeted mode and platform-opaque addresses never
maintain `times_seen`. -/
theorem c5_filters_and_times_seen (cfg : Config) (st : ScanState) (e : Event) :
    ((rssiRejects cfg st e ∨ nameRejects cfg e) →
      (detectionCallbackInner cfg st e).1.unique_devices = st.unique_devices ∧
      (detectionCallbackInner cfg st e).1.seen_count = st.seen_count ∧
      (detectionCallbackInner cfg st e).2 = []) ∧
    (¬ rssiRejects cfg st e → ¬ nameRejects cfg e →
      ((cfg.irks = [] → cfg.target_mac = none →
        dictGet (detectionCallbackInner cfg st e).1.unique_devices (upperAddr e) 0 =
          dictGet st.unique_devices (upperAddr e) 0 + 1) ∧
       (cfg.irks ≠ [] → isUuidAddr (upperAddr e) = false →
        dictGet (detectionCallbackInner cfg st e).1.unique_devices (upperAddr e) 0 =
          dictGet st.unique_devices (upperAddr e) 0 + 1) ∧
       (cfg.irks ≠ [] → isUuidAddr (upperAddr e) = true →
        (detectionCallbackInner cfg st e).1.unique_devices = st.unique_devices) ∧
       (cfg.irks = [] → ∀ tgt, cfg.target_mac = some tgt →
        (detectionCallbackInner cfg st e).1.unique_devices = st.unique_devices))) := by
  obtain ⟨g1, g2, g3, g4, g5, g6⟩ := applyWindow_fields cfg st e
  constructor
  · intro h
    rw [callback_rejected cfg st e h]
    exact ⟨g2, g1, rfl⟩
  · intro h1 h2
    rw [callback_accepted cfg st e h1 h2]
    refine ⟨?_, ?_, ?_, ?_⟩
    · intro hirk ht
      rw [modeDispatch_discover_times cfg _ e _ hirk ht, g2]
    · intro hirk huuid
      rw [modeDispatch_irk_times cfg _ e _ hirk huuid, g2]
    · intro hirk huuid
      rw [modeDispatch_uuid_times cfg _ e _ hirk huuid, g2]
    · intro hirk tgt ht
      rw [modeDispatch_target_times cfg _ e _ hirk tgt ht, g2]

/-- Witness for the amended C5 in discover-all mode at a concrete event. -/
theorem c5_witness :
    dictGet (detectionCallbackInner (cfgIrk []) initState eventT).1.unique_devices
      (upperAddr eventT) 0 =
    dictGet initState.unique_devices (upperAddr eventT) 0 + 1 :=
  ((c5_filters_and_times_seen (cfgIrk []) initState eventT).2
    (by simp [rssiRejects, cfgIrk])
    (by simp [nameRejects, cfgIrk])).1 rfl rfl

/-! ## C8: platform-opaque identifiers -/

/-- Number of warnings emitted for one identifier. -/
def warnCount (u : PyStr) (es : List Emit) : Nat := es.count (Emit.warn u)

/-- Warn counts add up over concatenation. -/
theorem warnCount_append (u : PyStr) (a b : List Emit) :
    warnCount u (a ++ b) = warnCount u a + warnCount u b := by
  simp [warnCount, List.count_append]

/-- An emitted record is not a warning. -/
theorem warnCount_record (u : PyStr) (r : Rec) :
    warnCount u [Emit.record r] = 0 := by
  simp [warnCount]

/-- The resolution loop emits no warnings. -/
theorem resolveLoop_no_warn (irks : List (List Nat)) (addr u : PyStr) :
    warnCount u (resolveLoop irks addr).2 = 0 := by
  induction irks with
  | nil => rfl
  | cons k rest ih =>
      by_cases hk : resolve_rpa k addr = true
      · simp [resolveLoop, hk, warnCount]
      · simp only [resolveLoop, hk, Bool.false_eq_true, if_false]
        simpa [warnCount, List.count_cons] using ih

/-- Warning behavior of one mode dispatch: at most one warning, a warning
leaves the identifier in the warned set, and an already-warned identifier
is never warned again. -/
theorem modeDispatch_warn (cfg : Config) (st : ScanState) (e : Event)
    (avg : Option Int) (u : PyStr) :
    warnCount u (modeDispatch cfg st e avg).2 ≤ 1 ∧
    (1 ≤ warnCount u (modeDispatch cfg st e avg).2 →
      u ∈ (modeDispatch cfg st e avg).1.non_rpa_warned) ∧
    (u ∈ st.non_rpa_warned →
      warnCount u (modeDispatch cfg st e avg).2 = 0 ∧
      u ∈ (modeDispatch cfg st e avg).1.non_rpa_warned) := by
  by_cases hirk : cfg.irks = []
  case pos =>
    unfold modeDispatch
    rw [if_neg (not_not_intro hirk)]
    rcases ht : cfg.target_mac with _ | tgt
    · simp [printDevice, recordDevice_warned, warnCount]
    · by_cases hc : strContains (upperAddr e) tgt = true
      · simp [hc, printDevice, recordDevice_warned, warnCount]
      · simp [hc, warnCount]
  case neg =>
    unfold modeDispatch irkDetection
    rw [if_pos hirk]
    by_cases huuid : isUuidAddr (upperAddr e) = true
    · simp only [huuid, if_true]
      by_cases hw : (upperAddr e) ∈ st.non_rpa_warned
      · simp [hw, warnCount]
      · by_cases hq : (!cfg.quiet && !cfg.tui && !cfg.gui) = true
        · by_cases hu : u = upperAddr e
          · subst hu
            refine ⟨?_, ?_, ?_⟩
            · simp [hw, hq, warnCount]
            · intro _
              simp [hw, hq]
            · intro hust
              exact absurd hust hw
          · have hbu : (Emit.warn (upperAddr e) == Emit.warn u) = false := by
              simp [beq_iff_eq]
              exact fun he => hu he.symm
            refine ⟨?_, ?_, ?_⟩
            · simp [hw, hq, warnCount, List.count_cons, hbu]
            · intro hge
              simp [hw, hq, warnCount, List.count_cons, hbu] at hge
            · intro hust
              constructor
              · simp [hw, hq, warnCount, List.count_cons, hbu]
              · simp [hw, hq, List.mem_cons]
                exact Or.inr hust
        · refine ⟨?_, ?_, ?_⟩
          · simp [hw, hq, warnCount]
          · intro hge
            simp [hw, hq, warnCount] at hge
          · intro hust
            constructor
            · simp [hw, hq, warnCount]
            · simp [hw, hq, List.mem_cons]
              exact Or.inr hust
    · simp only [huuid, Bool.false_eq_true, if_false]
      by_cases hres : (resolveLoop cfg.irks (upperAddr e)).1 = true
      · refine ⟨?_, ?_, ?_⟩ <;>
          simp [hres, printDevice, recordDevice_warned, warnCount_append,
            warnCount_record, resolveLoop_no_warn]
      · by_cases hv : cfg.verbose = true
        · refine ⟨?_, ?_, ?_⟩ <;>
            simp [hres, hv, printDevice, recordDevice_warned, warnCount_append,
              warnCount_record, resolveLoop_no_warn]
        · refine ⟨?_, ?_, ?_⟩ <;>
            simp [hres, hv, resolveLoop_no_warn]

/-- Warning behavior of one whole detection callback. -/
theorem callback_warn (cfg : Config) (st : ScanState) (e : Event) (u : PyStr) :
    warnCount u (detectionCallbackInner cfg st e).2 ≤ 1 ∧
    (1 ≤ warnCount u (detectionCallbackInner cfg st e).2 →
      u ∈ (detectionCallbackInner cfg st e).1.non_rpa_warned) ∧
    (u ∈ st.non_rpa_warned →
      warnCount u (detectionCallbackInner cfg st e).2 = 0 ∧
      u ∈ (detectionCallbackInner cfg st e).1.non_rpa_warned) := by
  obtain ⟨-, -, -, -, g5, -⟩ := applyWindow_fields cfg st e
  by_cases hrej : rssiRejects cfg st e ∨ nameRejects cfg e
  · rw [callback_rejected cfg st e hrej]
    refine ⟨by simp [warnCount], ?_, ?_⟩
    · intro hge
      simp [warnCount] at hge
    · intro hust
      refine ⟨rfl, ?_⟩
      rw [g5]
      exact hust
  · obtain ⟨h1, h2⟩ := not_or.mp hrej
    rw [callback_accepted cfg st e h1 h2]
    obtain ⟨s1, s2, s3⟩ :=
      modeDispatch_warn cfg (applyWindow cfg st e).1 e (applyWindow cfg st e).2 u
    refine ⟨s1, s2, ?_⟩
    intro hust
    refine s3 ?_
    rw [g5]
    exact hust

/-- Run-level warning invariant, folded over a list of events. -/
theorem runScan_warn_aux (cfg : Config) (u : PyStr) :
    ∀ (events : List Event) (p : ScanState × List Emit),
      warnCount u p.2 ≤ 1 →
      (1 ≤ warnCount u p.2 → u ∈ p.1.non_rpa_warned) →
      warnCount u (events.foldl (fun acc e =>
        ((detectionCallbackInner cfg acc.1 e).1,
         acc.2 ++ (detectionCallbackInner cfg acc.1 e).2)) p).2 ≤ 1 ∧
      (1 ≤ warnCount u (events.foldl (fun acc e =>
        ((detectionCallbackInner cfg acc.1 e).1,
         acc.2 ++ (detectionCallbackInner cfg acc.1 e).2)) p).2 →
        u ∈ (events.foldl (fun acc e =>
          ((detectionCallbackInner cfg acc.1 e).1,
           acc.2 ++ (detectionCallbackInner cfg acc.1 e).2)) p).1.non_rpa_warned) := by
  intro events
  induction events with
  | nil => intro p hp1 hp2; exact ⟨hp1, hp2⟩
  | cons e rest ih =>
      intro p hp1 hp2
      rw [List.foldl_cons]
      obtain ⟨s1, s2, s3⟩ := callback_warn cfg p.1 e u
      refine ih _ ?_ ?_
      · show warnCount u (p.2 ++ (detectionCallbackInner cfg p.1 e).2) ≤ 1
        rw [warnCount_append]
        by_cases hu : u ∈ p.1.non_rpa_warned
        · have := (s3 hu).1
          omega
        · have hz : warnCount u p.2 = 0 := by
            by_contra hnz
            exact hu (hp2 (by omega))
          omega
      · show 1 ≤ warnCount u (p.2 ++ (detectionCallbackInner cfg p.1 e).2) →
          u ∈ (detectionCallbackInner cfg p.1 e).1.non_rpa_warned
        intro hge
        rw [warnCount_append] at hge
        by_cases hd : 1 ≤ warnCount u (detectionCallbackInner cfg p.1 e).2
        · exact s2 hd
        · have hp : 1 ≤ warnCount u p.2 := by omega
          exact (s3 (hp2 hp)).2

/-- One mode dispatch on a platform-opaque address: only the detection
counter and the warned set move; no other counters, no record, at most
the single warning. -/
theorem modeDispatch_uuid_step (cfg : Config) (st : ScanState) (e : Event)
    (avg : Option Int) (hirk : cfg.irks ≠ [])
    (huuid : isUuidAddr (upperAddr e) = true) :
    (modeDispatch cfg st e avg).1.unique_devices = st.unique_devices ∧
    (modeDispatch cfg st e avg).1.resolved_devices = st.resolved_devices ∧
    (modeDispatch cfg st e avg).1.rpa_count = st.rpa_count ∧
    (modeDispatch cfg st e avg).1.device_best_gps = st.device_best_gps ∧
    (modeDispatch cfg st e avg).1.rssi_history = st.rssi_history ∧
    (modeDispatch cfg st e avg).1.seen_count = st.seen_count + 1 ∧
    ((modeDispatch cfg st e avg).2 = [] ∨
     (modeDispatch cfg st e avg).2 = [Emit.warn (upperAddr e)]) := by
  unfold modeDispatch irkDetection
  rw [if_pos hirk]
  simp only [huuid, if_true]
  by_cases hw : (upperAddr e) ∈ st.non_rpa_warned
  · simp [hw]
  · by_cases hq : (!cfg.quiet && !cfg.tui && !cfg.gui) = true
    · simp [hw, hq]
    · simp [hw, hq]

/-- C8 (amended).  A platform-opaque identifier triggers the
cannot-resolve warning at most once over the whole run (never once per
detection), and an accepted detection of such an identifier in IRK mode
leaves every per-address structure and counter untouched except the
total-detections counter (incremented before classification), the
seen-once warned set, and — when windowing is enabled — the RSSI window
updated before the filters; no `times_seen` entry, no resolution attempt,
no record: its whole output is empty or the single warning. -/
theorem c8_uuid_warn_once :
    (∀ (cfg : Config) (events : List Event) (u : PyStr),
      warnCount u (runScan cfg events).2 ≤ 1) ∧
    (∀ (cfg : Config) (st : ScanState) (e : Event),
      ¬ rssiRejects cfg st e → ¬ nameRejects cfg e → cfg.irks ≠ [] →
      isUuidAddr (upperAddr e) = true →
        (detectionCallbackInner cfg st e).1.unique_devices = st.unique_devices ∧
        (detectionCallbackInner cfg st e).1.resolved_devices = st.resolved_devices ∧
        (detectionCallbackInner cfg st e).1.rpa_count = st.rpa_count ∧
        (detectionCallbackInner cfg st e).1.device_best_gps = st.device_best_gps ∧
        (detectionCallbackInner cfg st e).1.seen_count = st.seen_count + 1 ∧
        ((detectionCallbackInner cfg st e).2 = [] ∨
         (detectionCallbackInner cfg st e).2 = [Emit.warn (upperAddr e)])) := by
  constructor
  · intro cfg events u
    unfold runScan
    exact (runScan_warn_aux cfg u events (initState, [])
      (by simp [warnCount]) (by intro hge; simp [warnCount] at hge)).1
  · intro cfg st e h1 h2 hirk huuid
    rw [callback_accepted cfg st e h1 h2]
    obtain ⟨g1, g2, g3, g4, g5, g6⟩ := applyWindow_fields cfg st e
    obtain ⟨u1, u2, u3, u4, u5, u6, u7⟩ :=
      modeDispatch_uuid_step cfg (applyWindow cfg st e).1 e
        (applyWindow cfg st e).2 hirk huuid
    exact ⟨u1.trans g2, u2.trans g3, u3.trans g4, u4.trans g6,
      by rw [u6, g1], u7⟩

/-- Counterexample to C8's "no counter changes": a platform-opaque
detection in IRK mode increments the total-detections counter. -/
theorem c8_counterexample :
    (detectionCallbackInner (cfgIrk [irkA]) initState eventU).1.seen_count = 1 ∧
    initState.seen_count = 0 ∧
    isUuidAddr (upperAddr eventU) = true := by
  refine ⟨by decide, rfl, by decide⟩

/-- Witness for the amended C8 at a concrete opaque-address event. -/
theorem c8_witness :
    (detectionCallbackInner (cfgIrk [irkA]) initState eventU).1.unique_devices =
      initState.unique_devices ∧
    (detectionCallbackInner (cfgIrk [irkA]) initState eventU).1.resolved_devices =
      initState.resolved_devices ∧
    (detectionCallbackInner (cfgIrk [irkA]) initState eventU).1.rpa_count =
      initState.rpa_count ∧
    (detectionCallbackInner (cfgIrk [irkA]) initState eventU).1.device_best_gps =
      initState.device_best_gps ∧
    (detectionCallbackInner (cfgIrk [irkA]) initState eventU).1.seen_count =
      initState.seen_count + 1 ∧
    ((detectionCallbackInner (cfgIrk [irkA]) initState eventU).2 = [] ∨
     (detectionCallbackInner (cfgIrk [irkA]) initState eventU).2 =
       [Emit.warn (upperAddr eventU)]) :=
  c8_uuid_warn_once.2 (cfgIrk [irkA]) initState eventU
    (by simp [rssiRejects, cfgIrk])
    (by simp [nameRejects, cfgIrk])
    (by simp [cfgIrk])
    (by decide)

end BtrpaScan
